import Mathlib

/-!
Shallow embedding of the Huawei NVME partition-image reader
(source file nvme-huawei.py) and verification of its specification.

Bytes are modelled as natural numbers below 256; a Python bytes object is a
List Nat; Python file access over the in-memory image is explicit slicing.
Exceptions raised by the script are modelled with Except over ScanError.
-/

set_option maxRecDepth 20000

/-- Failure modes of the embedded script. bufferEmpty is the RuntimeError
raised for zero-length data, invalidTag the RuntimeError raised when a tag
is neither bytes nor valid hex, negativeSeek the ValueError raised by seek
on a negative position, headerMismatch the RuntimeError raised when the
re-read header differs from the expected literal, and unicodeError an
uncaught UnicodeDecodeError. -/
inductive ScanError where
  | bufferEmpty
  | invalidTag
  | negativeSeek (pos : Int)
  | headerMismatch (expected : String) (got : List Nat)
  | unicodeError
deriving DecidableEq

deriving instance DecidableEq for Except

/-- Constant MAGIC of the source: the hex spelling of Hisi-NV-Partition. -/
def MAGIC : String := "486973692D4E562D506172746974696F6E"

/-- Constant MAX_GAP of the source. -/
def MAX_GAP : Nat := 20

/-- Constant STRING_LENGHT of the source (the misspelling is in the source). -/
def STRING_LENGHT : Nat := 45

/-- The static catalog VALUES of the source, in insertion order: hex-encoded
tag mapped to display name. -/
def VALUES : List (String × String) :=
  [("53575645525349", "SWVERSI"),
   ("424F4152444944", "BOARDID"),
   ("534E", "SN"),
   ("4D414341444452", "MACADDR"),
   ("4D44415445", "MDATE"),
   ("4553575652", "ESWVR"),
   ("4953575652", "ISWVR"),
   ("4548575652", "EHWVR"),
   ("4948575652", "IHWVR"),
   ("544D4D49", "TMMI"),
   ("4D4143574C414E", "MACWLAN"),
   ("4D41434254", "MACBT"),
   ("57564C4F434B", "WVLOCK"),
   ("57564445564944", "WVDEVID"),
   ("48494D4E544E", "HIMNTN"),
   ("44554D5043544C", "DUMPCTL"),
   ("4652504B4559", "FRPKEY"),
   ("53504B5F5041", "SPK_PA"),
   ("4249444241434B", "BIDBACK"),
   ("5450434F4C4F52", "TPCOLOR")]

/-- Value of a single hexadecimal digit, as bytes.fromhex accepts it. -/
def hexDigitVal (c : Char) : Option Nat :=
  if 48 ≤ c.toNat ∧ c.toNat ≤ 57 then some (c.toNat - 48)
  else if 97 ≤ c.toNat ∧ c.toNat ≤ 102 then some (c.toNat - 87)
  else if 65 ≤ c.toNat ∧ c.toNat ≤ 70 then some (c.toNat - 55)
  else none

/-- Python bytes.fromhex over a character list: consumes hex digits two at a
time, failing on odd length or a non-hex character. The source only ever
applies it to space-free hex strings, which this covers exactly. -/
def bytesFromHexList : List Char → Option (List Nat)
  | [] => some []
  | [_] => none
  | c1 :: c2 :: rest =>
    match hexDigitVal c1, hexDigitVal c2, bytesFromHexList rest with
    | some h, some l, some bs => some ((16 * h + l) :: bs)
    | _, _, _ => none

/-- Python bytes.fromhex on a string. -/
def bytesFromHex (s : String) : Option (List Nat) := bytesFromHexList s.data

/-- Does the pattern occur at the head of the data? This is the byte-by-byte
comparison underlying the find method on bytes. -/
def matchesAt : List Nat → List Nat → Bool
  | [], _ => true
  | _ :: _, [] => false
  | p :: ps, d :: ds => (p == d) && matchesAt ps ds

/-- Auxiliary for pyFind: index of the first occurrence of the pattern in the
remaining data, counting from i; -1 when absent. -/
def pyFindAux (pat : List Nat) : List Nat → Nat → Int
  | [], i => if matchesAt pat [] then Int.ofNat i else -1
  | d :: ds, i => if matchesAt pat (d :: ds) then Int.ofNat i else pyFindAux pat ds (i + 1)

/-- Python data.find(pat) on bytes: zero-based offset of the first occurrence,
-1 when the pattern does not occur. -/
def pyFind (data pat : List Nat) : Int := pyFindAux pat data 0

/-- The argument passed to data.find in get_value_offset: Python is
dynamically typed, so the value is either a bytes object (direct search) or a
string (TypeError, then the hex-decode fallback). -/
inductive PyVal where
  | bytes (bs : List Nat)
  | str (s : String)
deriving DecidableEq

/-- Embedding of get_value_offset(data, value): raise for zero-length data,
then data.find(value); on the TypeError a string argument causes, retry with
bytes.fromhex(value), raising when that fails too. The result is the raw find
result, so -1 when the value is absent. -/
def get_value_offset (data : List Nat) (value : PyVal) : Except ScanError Int :=
  if data.length ≤ 0 then .error .bufferEmpty
  else
    match value with
    | .bytes bs => .ok (pyFind data bs)
    | .str s =>
      match bytesFromHex s with
      | some bs => .ok (pyFind data bs)
      | none => .error .invalidTag

/-- Embedding of get_gap_num(string): MAX_GAP minus the character length of
the given string, over the integers (no range check in the source). -/
def get_gap_num (string : String) : Int := (MAX_GAP : Int) - string.length

/-- Python seek(pos) followed by read(n) over the in-memory contents: at most
n bytes starting at pos, a short read past end-of-file. -/
def pyReadAt (data : List Nat) (pos n : Nat) : List Nat := (data.drop pos).take n

/-- Result of Python decode with the ascii codec in strict mode: fails with
UnicodeDecodeError exactly when some byte is 128 or more. -/
def decodeAscii (bs : List Nat) : Except ScanError String :=
  if bs.all (fun b => b < 128) then .ok (String.mk (bs.map Char.ofNat))
  else .error .unicodeError

/-- Result of Python decode with the ascii codec and the ignore handler:
bytes of 128 or more are dropped; this codec-handler pair never raises. -/
def decodeAsciiIgnore (bs : List Nat) : Except ScanError String :=
  .ok (String.mk ((bs.filter (fun b => b < 128)).map Char.ofNat))

/-- One hexadecimal digit character, lowercase, for the bytes repr. -/
def hexDigitChar (n : Nat) : Char :=
  if n < 10 then Char.ofNat (48 + n) else Char.ofNat (87 + n)

/-- Python repr of a single byte inside a single-quoted bytes literal. -/
def pyByteRepr (b : Nat) : List Char :=
  if b = 92 then [Char.ofNat 92, Char.ofNat 92]
  else if b = 39 then [Char.ofNat 92, Char.ofNat 39]
  else if b = 9 then [Char.ofNat 92, 't']
  else if b = 10 then [Char.ofNat 92, 'n']
  else if b = 13 then [Char.ofNat 92, 'r']
  else if 32 ≤ b ∧ b ≤ 126 then [Char.ofNat b]
  else [Char.ofNat 92, 'x', hexDigitChar (b / 16), hexDigitChar (b % 16)]

/-- Python str applied to a bytes object: the textual dump used by the third
fallback of parse_string (single-quoted form). -/
def pyBytesRepr (bs : List Nat) : String :=
  String.mk ('b' :: Char.ofNat 39 :: ((bs.map pyByteRepr).flatten ++ [Char.ofNat 39]))

/-- One character of the regex class a-z0-9 under IGNORECASE; the strings this
script feeds to the regex are ascii-only, over which this is exact. -/
def isAlnumAscii (c : Char) : Bool :=
  (97 ≤ c.toNat && c.toNat ≤ 122) || (65 ≤ c.toNat && c.toNat ≤ 90) ||
    (48 ≤ c.toNat && c.toNat ≤ 57)

/-- Embedding of re.search for the class a-z0-9 with IGNORECASE, coerced to
a boolean as the source does. -/
def hasAlnum (s : String) : Bool := s.data.any isAlnumAscii

/-- Read position computed inside parse_string: offset + buf + gap, the
argument of seek. -/
def value_read_pos (offset gap : Int) (buf : Nat) : Int := offset + buf + gap

/-- The try/except ladder of parse_string that computes the value before the
emptiness filter. Each failed decode attempt has already consumed its bytes,
so the next read starts after them: the file cursor is never rewound. -/
def decodedText (pos : Nat) (data : List Nat) : String :=
  let r1 := pyReadAt data pos STRING_LENGHT
  match decodeAscii r1 with
  | .ok s => s
  | .error _ =>
    let r2 := pyReadAt data (pos + r1.length) STRING_LENGHT
    match decodeAsciiIgnore r2 with
    | .ok s => s
    | .error _ => pyBytesRepr (pyReadAt data (pos + r1.length + r2.length) STRING_LENGHT)

/-- The final filter of parse_string: a value without alphanumeric characters,
or an empty value, becomes the sentinel NULL. -/
def null_filter (value : String) : String :=
  if hasAlnum value = false ∨ value = "" then "NULL" else value

/-- Embedding of parse_string(offset, gap, image, buf): seek to
offset + buf + gap (Python raises on a negative target), read and decode up
to STRING_LENGHT bytes through the fallback ladder, then filter. -/
def parse_string (offset gap : Int) (data : List Nat) (buf : Nat) : Except ScanError String :=
  let p := value_read_pos offset gap buf
  if p < 0 then .error (.negativeSeek p)
  else .ok (null_filter (decodedText p.toNat data))

/-- The ascii bytes of the literal Hisi-NV-Partition compared against the
re-read header in parse_null_bytes. -/
def hisiMagicBytes : List Nat := "Hisi-NV-Partition".data.map Char.toNat

/-- Embedding of parse_null_bytes(image): read the whole file, look for the
hex MAGIC (decoded to bytes by the fallback in get_value_offset), seek to the
found offset (Python raises a negative-seek ValueError on the -1 of a failed
find), read 17 bytes there and compare them with the expected literal. -/
def parse_null_bytes (data : List Nat) : Except ScanError Int :=
  match get_value_offset data (.str MAGIC) with
  | .error e => .error e
  | .ok off =>
    if off < 0 then .error (.negativeSeek off)
    else
      let hdr := pyReadAt data off.toNat 17
      if hdr ≠ hisiMagicBytes then .error (.headerMismatch MAGIC hdr)
      else .ok off

/-- One output record of the scan loop in main: display name, extracted value,
raw find offset, and the character length of the hex key (what the debug line
prints as LENGHT). -/
structure RecordOut where
  name : String
  value : String
  offset : Int
  hexLen : Nat
deriving DecidableEq

/-- Embedding of one iteration of the loop in main (steps 3.1 to 3.4): find
the hex tag in the data, compute the gap from the hex string itself, parse the
value using the decoded tag byte length, and decode the display name. -/
def scanEntry (data : List Nat) (hexTag : String) : Except ScanError RecordOut :=
  match get_value_offset data (.str hexTag) with
  | .error e => .error e
  | .ok off =>
    let gap := get_gap_num hexTag
    match bytesFromHex hexTag with
    | none => .error .invalidTag
    | some tagBytes =>
      match parse_string off gap data tagBytes.length with
      | .error e => .error e
      | .ok value =>
        match decodeAscii tagBytes with
        | .error e => .error e
        | .ok name => .ok ⟨name, value, off, hexTag.length⟩

/-- Console line for one record, normal or debug, as formatted in main. -/
def formatRecord (debug : Bool) (r : RecordOut) : String :=
  if debug then
    r.name ++ " = " ++ r.value ++ " (OFFSET = " ++ toString r.offset ++
      ") (LENGHT = " ++ toString r.hexLen ++ ")"
  else
    r.name ++ " = " ++ r.value

/-- The console line produced for one catalog entry. -/
def scanEntryLine (debug : Bool) (data : List Nat) (hexTag : String) : Except ScanError String :=
  (scanEntry data hexTag).map (formatRecord debug)

/-- Outcome of the argument handling in main: fewer than two arguments print
usage only; a first argument other than -r prints the unknown-option message;
-r scans, in debug mode exactly when there are four argv entries and the third
is -d. With five or more entries the path variable is never assigned (a
NameError in the source), modelled as a missing path. -/
inductive CliOut where
  | usage
  | unknownOption (arg : String)
  | scan (debug : Bool) (path : Option String)
deriving DecidableEq

/-- Embedding of the argument dispatch in main; argv includes the program
name at index zero, as in Python. -/
def dispatch (argv : List String) : CliOut :=
  if argv.length < 3 then .usage
  else if argv[1]? = some "-r" then
    let path : Option String :=
      if argv.length = 4 then argv[3]?
      else if argv.length = 3 then argv[2]?
      else none
    .scan ((argv.length == 4) && (argv[2]? == some "-d")) path
  else .unknownOption ((argv[1]?).getD "")

/-- Modelled from the spec (section 4.3) for comparison with the source: a
fallback chain in which every decode step applies to the same 45-byte window.
Used only to state how the source deviates from that reading. -/
def decodedText_spec (pos : Nat) (data : List Nat) : String :=
  let r1 := pyReadAt data pos STRING_LENGHT
  match decodeAscii r1 with
  | .ok s => s
  | .error _ =>
    match decodeAsciiIgnore r1 with
    | .ok s => s
    | .error _ => pyBytesRepr r1

/-- Copy of decodedText with the third fallback replaced by a fixed sentinel
string no decode produces: equality with decodedText states that the raw-dump
branch is never taken. -/
def decodedText_no3 (pos : Nat) (data : List Nat) : String :=
  let r1 := pyReadAt data pos STRING_LENGHT
  match decodeAscii r1 with
  | .ok s => s
  | .error _ =>
    let r2 := pyReadAt data (pos + r1.length) STRING_LENGHT
    match decodeAsciiIgnore r2 with
    | .ok s => s
    | .error _ => "UNREACHABLE RAW DUMP"

/-- Image of the end-to-end scenario of the spec: the tag bytes of SN at
offset 1000, then 18 zero bytes, the ascii text A1B2C3D4, and null padding. -/
def c1Image : List Nat :=
  List.replicate 1000 0 ++ [0x53, 0x4E] ++ List.replicate 18 0 ++
    "A1B2C3D4".data.map Char.toNat ++ List.replicate 37 0

/-- The value the source actually extracts in that scenario: two NUL
characters, the text, and 35 NUL characters of padding. -/
def c1CodeValue : String :=
  String.mk (Char.ofNat 0 :: Char.ofNat 0 :: ("A1B2C3D4".data ++ List.replicate 35 (Char.ofNat 0)))

/-- All-zero image of 60 bytes: contains no catalog tag at all. -/
def c4Image : List Nat := List.replicate 60 0

/-- Image for the fallback-window analysis: a non-ascii byte inside the first
45-byte window, readable text in the following one. -/
def c6Image : List Nat :=
  128 :: (List.replicate 44 0 ++ "HELLO99".data.map Char.toNat ++ List.replicate 38 0)

/-- The value the source extracts from c6Image: the lenient decode of the
second 45-byte window. -/
def c6CodeValue : String :=
  String.mk ("HELLO99".data ++ List.replicate 38 (Char.ofNat 0))

/-- Helper: a successful hex decode consumes exactly two characters per byte,
so the hex string is twice as long as the decoded byte sequence. -/
theorem bytesFromHexList_length : ∀ (cs : List Char) (bs : List Nat),
    bytesFromHexList cs = some bs → cs.length = 2 * bs.length
  | [], bs, h => by
      simp only [bytesFromHexList, Option.some.injEq] at h
      simp [← h]
  | [c], bs, h => by simp [bytesFromHexList] at h
  | c1 :: c2 :: rest, bs, h => by
      simp only [bytesFromHexList] at h
      rcases h1 : hexDigitVal c1 with _ | hv <;> rw [h1] at h
      · exact Option.noConfusion h
      rcases h2 : hexDigitVal c2 with _ | lv <;> rw [h2] at h
      · exact Option.noConfusion h
      rcases h3 : bytesFromHexList rest with _ | bs2 <;> rw [h3] at h
      · exact Option.noConfusion h
      have ih := bytesFromHexList_length rest bs2 h3
      injection h with h
      subst h
      simp only [List.length_cons, ih]
      omega

/-- Helper: the length of a successful string hex decode. -/
theorem bytesFromHex_length (s : String) (bs : List Nat)
    (h : bytesFromHex s = some bs) : s.length = 2 * bs.length :=
  bytesFromHexList_length s.data bs h

/-- Helper: at a non-negative seek position, parse_string succeeds with the
filtered decoded text read at that position. -/
theorem parse_string_ok (offset gap : Int) (data : List Nat) (buf : Nat) (pos : Nat)
    (hpos : value_read_pos offset gap buf = (pos : Int)) :
    parse_string offset gap data buf = .ok (null_filter (decodedText pos data)) := by
  simp only [parse_string, hpos]
  rw [if_neg (by omega)]
  rw [Int.toNat_natCast]

/-- C2 counterexample: at the catalog entry mapping hex tag 534E to display
name SN, the gap is 20 - 4 = 16 (computed from the hex string), not
20 - 2 = 18 (the display-name length), and for a tag found at offset 1000 the
value read position is 1018, not 1020. -/
theorem c2_counterexample :
    get_gap_num "534E" = 16 ∧
    (MAX_GAP : Int) - ("SN".length : Int) = 18 ∧
    value_read_pos 1000 (get_gap_num "534E") 2 = 1018 ∧
    value_read_pos 1000 (get_gap_num "534E") 2 ≠
      1000 + 2 + ((MAX_GAP : Int) - ("SN".length : Int)) := by
  refine ⟨by decide, by decide, by decide, by decide⟩

/-- C2 amended (proved): for every catalog entry the gap is MAX_GAP minus the
length of the hex-encoded tag string, which is twice the tag byte length, so
the value read position is tag_offset + tag_byte_length + (20 - 2L), that is
tag_offset + 20 - L. -/
theorem c2_gap_uses_hex_length (hexTag : String) (bs : List Nat) (off : Int)
    (h : bytesFromHex hexTag = some bs) :
    get_gap_num hexTag = (MAX_GAP : Int) - 2 * bs.length ∧
    value_read_pos off (get_gap_num hexTag) bs.length =
      off + (MAX_GAP : Int) - bs.length := by
  have hl := bytesFromHex_length hexTag bs h
  unfold get_gap_num value_read_pos
  rw [hl]
  constructor
  · push_cast
    ring
  · push_cast
    ring

/-- C2 witness: the amended statement evaluated at the SN entry. -/
theorem c2_gap_uses_hex_length_witness :
    bytesFromHex "534E" = some [83, 78] ∧
    get_gap_num "534E" = (MAX_GAP : Int) - 2 * ([83, 78] : List Nat).length ∧
    value_read_pos 1000 (get_gap_num "534E") ([83, 78] : List Nat).length =
      1000 + (MAX_GAP : Int) - ([83, 78] : List Nat).length := by
  have h : bytesFromHex "534E" = some [83, 78] := by rfl
  exact ⟨h, (c2_gap_uses_hex_length "534E" [83, 78] 1000 h).1,
    (c2_gap_uses_hex_length "534E" [83, 78] 1000 h).2⟩

/-- C3 counterexample: a 21-character name makes get_gap_num return the
negative value -1; no error is raised, the function is total. -/
theorem c3_counterexample :
    get_gap_num "AAAAAAAAAAAAAAAAAAAAA" = -1 ∧
    get_gap_num "AAAAAAAAAAAAAAAAAAAAA" < 0 := by
  refine ⟨by decide, by decide⟩

/-- C3 amended (proved): gap(s) + length(s) = MAX_GAP holds for every string,
and for strings longer than MAX_GAP the computed gap is negative, with no
error raised. -/
theorem c3_gap_arith (s : String) :
    get_gap_num s + (s.length : Int) = (MAX_GAP : Int) ∧
    (MAX_GAP < s.length → get_gap_num s < 0) := by
  unfold get_gap_num
  constructor
  · ring
  · intro h
    have h2 : (MAX_GAP : Int) < (s.length : Int) := by exact_mod_cast h
    omega

/-- C3 witness: the amended statement evaluated at a short and at an
over-long name. -/
theorem c3_gap_arith_witness :
    (get_gap_num "SN" + (("SN".length : Nat) : Int) = (MAX_GAP : Int)) ∧
    MAX_GAP < "AAAAAAAAAAAAAAAAAAAAA".length ∧
    get_gap_num "AAAAAAAAAAAAAAAAAAAAA" < 0 :=
  ⟨(c3_gap_arith "SN").1, by decide,
    (c3_gap_arith "AAAAAAAAAAAAAAAAAAAAA").2 (by decide)⟩

/-- C5 (confirmed): on a zero-length buffer get_value_offset fails with the
buffer-empty error for every tag, before any search; on a non-empty buffer the
emptiness check passes and the result is exactly that of the search. -/
theorem c5_empty_buffer_check (data : List Nat) (v : PyVal) :
    (data = [] → get_value_offset data v = .error .bufferEmpty) ∧
    (data ≠ [] →
      get_value_offset data v =
        match v with
        | .bytes bs => .ok (pyFind data bs)
        | .str s =>
          match bytesFromHex s with
          | some bs => .ok (pyFind data bs)
          | none => .error .invalidTag) := by
  constructor
  · intro h
    subst h
    rfl
  · intro h
    have hlen : ¬ data.length ≤ 0 := by
      simp only [Nat.le_zero, List.length_eq_zero]
      exact h
    unfold get_value_offset
    rw [if_neg hlen]

/-- C5 witness: the empty buffer fails, a one-byte buffer searches. -/
theorem c5_empty_buffer_check_witness :
    get_value_offset [] (.str "534E") = .error .bufferEmpty ∧
    get_value_offset [0] (.str "534E") = .ok (-1) := by
  constructor
  · exact (c5_empty_buffer_check [] (.str "534E")).1 rfl
  · exact ((c5_empty_buffer_check [0] (.str "534E")).2 (by decide)).trans (by rfl)

/-- C10 (confirmed): the ascii codec with the ignore handler never raises, so
the third fallback of parse_string, the raw textual dump, is unreachable:
decodedText always agrees with the copy whose third branch is a sentinel
string produced by no decode. -/
theorem c10_third_branch_unreachable :
    (∀ bs : List Nat,
      decodeAsciiIgnore bs =
        .ok (String.mk ((bs.filter (fun b => b < 128)).map Char.ofNat))) ∧
    (∀ (pos : Nat) (data : List Nat), decodedText pos data = decodedText_no3 pos data) := by
  constructor
  · intro bs
    rfl
  · intro pos data
    unfold decodedText decodedText_no3
    cases h : decodeAscii (pyReadAt data pos STRING_LENGHT) <;>
      simp [h, decodeAsciiIgnore]

/-- C1 counterexample: on the scenario image the scan of the 534E entry does
not produce the record line SN = A1B2C3D4; the extracted value begins two NUL
bytes before the text and keeps the NUL padding. -/
theorem c1_counterexample :
    scanEntryLine false c1Image "534E" = .ok ("SN = " ++ c1CodeValue) ∧
    "SN = " ++ c1CodeValue ≠ "SN = A1B2C3D4" ∧
    c1CodeValue ≠ "A1B2C3D4" := by
  refine ⟨by rfl, by decide, by decide⟩

/-- C1 amended (proved): on the scenario image the 534E entry yields the
record SN whose 45-character value is two NUL characters, the text A1B2C3D4,
and 35 NUL characters: the value is read at position 1018, which is
1000 + 2 + (20 - 4), the gap being computed from the hex string, and NUL
bytes survive the strict ascii decode. -/
theorem c1_scan_value :
    scanEntry c1Image "534E" = .ok ⟨"SN", c1CodeValue, 1000, 4⟩ ∧
    c1CodeValue = decodedText 1018 c1Image ∧
    value_read_pos 1000 (get_gap_num "534E") 2 = 1018 := by
  refine ⟨by rfl, by rfl, by rfl⟩

/-- C4 counterexample: with the MACADDR tag absent from the image the find
result -1 is not surfaced as a tag-not-found marker: it is used as the offset,
the value is read at position -1 + 7 + 6 = 12, and the record carries the
ordinary NULL sentinel. -/
theorem c4_counterexample :
    get_value_offset c4Image (.str "4D414341444452") = .ok (-1) ∧
    scanEntry c4Image "4D414341444452" = .ok ⟨"MACADDR", "NULL", -1, 14⟩ ∧
    value_read_pos (-1) (get_gap_num "4D414341444452") 7 = 12 := by
  refine ⟨by rfl, by rfl, by rfl⟩

/-- C4 amended (proved): when a tag is absent from a non-empty image the scan
still yields an ordinary record (processing continues to the next entry): the
find result -1 is used as the offset, fed into the seek arithmetic of
parse_string, and the value is whatever decodes at position
-1 + tag_byte_length + gap. -/
theorem c4_not_found_offset (data : List Nat) (hexTag : String) (bs : List Nat)
    (name : String) (pos : Nat)
    (hbs : bytesFromHex hexTag = some bs)
    (hname : decodeAscii bs = .ok name)
    (hne : data ≠ [])
    (habs : pyFind data bs = -1)
    (hpos : value_read_pos (-1) (get_gap_num hexTag) bs.length = (pos : Int)) :
    scanEntry data hexTag =
      .ok ⟨name, null_filter (decodedText pos data), -1, hexTag.length⟩ := by
  have hlen : ¬ data.length ≤ 0 := by
    simp only [Nat.le_zero, List.length_eq_zero]
    exact hne
  have hoff : get_value_offset data (.str hexTag) = .ok (-1) := by
    unfold get_value_offset
    rw [if_neg hlen]
    simp [hbs, habs]
  have hps := parse_string_ok (-1) (get_gap_num hexTag) data bs.length pos hpos
  simp only [scanEntry, hoff, hbs, hps, hname]

/-- C4 witness: the amended statement evaluated on an all-zero image and the
MACADDR entry; the read happens at position 12 = -1 + 7 + 6. -/
theorem c4_not_found_offset_witness :
    bytesFromHex "4D414341444452" = some [77, 65, 67, 65, 68, 68, 82] ∧
    pyFind c4Image [77, 65, 67, 65, 68, 68, 82] = -1 ∧
    value_read_pos (-1) (get_gap_num "4D414341444452")
      ([77, 65, 67, 65, 68, 68, 82] : List Nat).length = ((12 : Nat) : Int) ∧
    scanEntry c4Image "4D414341444452" =
      .ok ⟨"MACADDR", null_filter (decodedText 12 c4Image), -1,
        ("4D414341444452" : String).length⟩ := by
  refine ⟨by rfl, by rfl, by rfl, ?_⟩
  exact c4_not_found_offset c4Image "4D414341444452" [77, 65, 67, 65, 68, 68, 82]
    "MACADDR" 12 (by rfl) (by rfl) (by decide) (by rfl) (by rfl)

/-- C6 counterexample: a non-ascii byte in the first 45-byte window makes the
strict decode fail, and the lenient decode is then applied to the NEXT 45
bytes, not to the same window: the same-window reading of the spec would
yield NULL here, the source yields the text of the second window. -/
theorem c6_counterexample :
    parse_string 0 0 c6Image 0 = .ok c6CodeValue ∧
    null_filter (decodedText_spec 0 c6Image) = "NULL" ∧
    c6CodeValue ≠ "NULL" := by
  refine ⟨by rfl, by rfl, by decide⟩

/-- C6 amended (proved): parse_string reads up to 45 bytes starting at
offset + buf + gap (a short read at end-of-buffer is decoded as-is), and when
the strict decode fails the lenient decode applies to the following up-to-45
bytes, the file cursor having advanced past the consumed ones, not to the
same window. -/
theorem c6_read_windows (offset gap : Int) (data : List Nat) (buf : Nat) (pos : Nat)
    (hpos : value_read_pos offset gap buf = (pos : Int)) :
    parse_string offset gap data buf = .ok (null_filter (decodedText pos data)) ∧
    (pyReadAt data pos STRING_LENGHT).length = min STRING_LENGHT (data.length - pos) ∧
    (decodeAscii (pyReadAt data pos STRING_LENGHT) = .error .unicodeError →
      decodedText pos data =
        String.mk (((pyReadAt data (pos + (pyReadAt data pos STRING_LENGHT).length)
          STRING_LENGHT).filter (fun b => b < 128)).map Char.ofNat)) := by
  refine ⟨parse_string_ok offset gap data buf pos hpos, ?_, ?_⟩
  · simp [pyReadAt]
  · intro h
    simp only [decodedText, h, decodeAsciiIgnore]

/-- C6 witness: the amended statement evaluated on the two-window image. -/
theorem c6_read_windows_witness :
    value_read_pos 0 0 0 = ((0 : Nat) : Int) ∧
    decodeAscii (pyReadAt c6Image 0 STRING_LENGHT) = .error .unicodeError ∧
    parse_string 0 0 c6Image 0 = .ok (null_filter (decodedText 0 c6Image)) ∧
    decodedText 0 c6Image =
      String.mk (((pyReadAt c6Image (0 + (pyReadAt c6Image 0 STRING_LENGHT).length)
        STRING_LENGHT).filter (fun b => b < 128)).map Char.ofNat) := by
  have h := c6_read_windows 0 0 c6Image 0 0 (by rfl)
  exact ⟨by rfl, by rfl, h.1, h.2.2 (by rfl)⟩

/-- C7 (confirmed): with a valid seek position, parse_string returns the NULL
sentinel when the decoded text is empty or has no alphanumeric character, and
otherwise returns the decoded text unchanged. -/
theorem c7_null_sentinel (offset gap : Int) (data : List Nat) (buf : Nat) (pos : Nat)
    (hpos : value_read_pos offset gap buf = (pos : Int)) :
    (hasAlnum (decodedText pos data) = false ∨ decodedText pos data = "" →
      parse_string offset gap data buf = .ok "NULL") ∧
    (hasAlnum (decodedText pos data) = true →
      parse_string offset gap data buf = .ok (decodedText pos data)) := by
  have hps := parse_string_ok offset gap data buf pos hpos
  constructor
  · intro h
    rw [hps]
    unfold null_filter
    rw [if_pos h]
  · intro h
    rw [hps]
    unfold null_filter
    have hc : ¬ (hasAlnum (decodedText pos data) = false ∨ decodedText pos data = "") := by
      rintro (h1 | h2)
      · rw [h] at h1
        exact Bool.noConfusion h1
      · rw [h2] at h
        exact absurd h (by decide)
    rw [if_neg hc]

/-- C7 witness: a 45-byte value field of null bytes decodes to the NULL
sentinel, not to an empty string or raw bytes. -/
theorem c7_null_sentinel_witness :
    value_read_pos 0 0 0 = ((0 : Nat) : Int) ∧
    hasAlnum (decodedText 0 (List.replicate 45 0)) = false ∧
    parse_string 0 0 (List.replicate 45 0) 0 = .ok "NULL" := by
  refine ⟨by rfl, by decide, ?_⟩
  exact (c7_null_sentinel 0 0 (List.replicate 45 0) 0 0 (by rfl)).1 (Or.inl (by decide))

/-- Helper: a successful byte-by-byte match means the pattern is an exact
prefix of the data. -/
theorem matchesAt_take : ∀ (pat l : List Nat), matchesAt pat l = true →
    l.take pat.length = pat
  | [], l, _ => by simp
  | p :: ps, [], h => by simp [matchesAt] at h
  | p :: ps, d :: ds, h => by
      simp only [matchesAt, Bool.and_eq_true, beq_iff_eq] at h
      simp only [List.length_cons, List.take_succ_cons]
      rw [matchesAt_take ps ds h.2, h.1]

/-- Helper: a non-negative pyFindAux result locates an actual match in the
remaining data. -/
theorem pyFindAux_found : ∀ (l pat : List Nat) (i k : Nat),
    pyFindAux pat l i = Int.ofNat k →
    i ≤ k ∧ matchesAt pat (l.drop (k - i)) = true
  | [], pat, i, k, h => by
      unfold pyFindAux at h
      by_cases hm : matchesAt pat [] = true
      · rw [if_pos hm] at h
        have hik : i = k := Int.ofNat.inj h
        subst hik
        simp [hm]
      · rw [if_neg hm] at h
        rw [Int.ofNat_eq_coe] at h
        exact absurd h (by omega)
  | d :: ds, pat, i, k, h => by
      unfold pyFindAux at h
      by_cases hm : matchesAt pat (d :: ds) = true
      · rw [if_pos hm] at h
        have hik : i = k := Int.ofNat.inj h
        subst hik
        simp [hm]
      · rw [if_neg hm] at h
        obtain ⟨h1, h2⟩ := pyFindAux_found ds pat (i + 1) k h
        refine ⟨by omega, ?_⟩
        have hk : k - i = (k - (i + 1)) + 1 := by omega
        rw [hk, List.drop_succ_cons]
        exact h2

/-- Helper: a non-negative pyFind result is an offset where the pattern
really occurs, so re-reading the pattern length there returns the pattern. -/
theorem pyFind_found (data pat : List Nat) (k : Nat)
    (h : pyFind data pat = Int.ofNat k) :
    (data.drop k).take pat.length = pat := by
  obtain ⟨-, hm⟩ := pyFindAux_found data pat 0 k h
  exact matchesAt_take pat (data.drop k) (by simpa using hm)

/-- C8 counterexample: a non-empty image without the magic fails with the
negative-seek error caused by seeking to the raw find result -1, not with a
dedicated header-not-found diagnostic; an empty image fails with the
buffer-empty error instead. -/
theorem c8_counterexample :
    parse_null_bytes [65, 66, 67] = .error (.negativeSeek (-1)) ∧
    parse_null_bytes [] = .error .bufferEmpty := by
  refine ⟨by rfl, by rfl⟩

/-- C8 amended (proved): header validation characterized over every image. An
empty image fails with the buffer-empty error; a non-empty image without the
magic fails with the negative-seek error carrying the raw -1 find result;
when the magic occurs, the 17 bytes re-read at the found offset necessarily
equal the expected literal, so the mismatch branch cannot fire and the found
byte offset is returned. -/
theorem c8_header_validation (data : List Nat) :
    parse_null_bytes data =
      if data.length = 0 then .error .bufferEmpty
      else if pyFind data hisiMagicBytes < 0 then
        .error (.negativeSeek (pyFind data hisiMagicBytes))
      else .ok (pyFind data hisiMagicBytes) := by
  have hmagic : bytesFromHex MAGIC = some hisiMagicBytes := by rfl
  by_cases h0 : data.length = 0
  · rw [if_pos h0]
    unfold parse_null_bytes get_value_offset
    rw [if_pos (by omega)]
  · rw [if_neg h0]
    have hoff : get_value_offset data (.str MAGIC) = .ok (pyFind data hisiMagicBytes) := by
      unfold get_value_offset
      rw [if_neg (by omega)]
      simp [hmagic]
    rcases hk : pyFind data hisiMagicBytes with k | k
    · have hlt : ¬ Int.ofNat k < 0 := by
        rw [Int.ofNat_eq_coe]
        omega
      have hhdr : pyReadAt data (Int.ofNat k).toNat 17 = hisiMagicBytes := by
        have h17 : hisiMagicBytes.length = 17 := by rfl
        have hp := pyFind_found data hisiMagicBytes k hk
        rw [h17] at hp
        exact hp
      simp only [parse_null_bytes, hoff, hk]
      rw [if_neg hlt, if_neg hlt]
      simp [hhdr]
      exact hhdr
    · have hlt : Int.negSucc k < 0 := Int.negSucc_lt_zero k
      simp only [parse_null_bytes, hoff, hk]
      rw [if_pos hlt, if_pos hlt]

/-- Helper: the argument dispatch of main on the list of four argv entries
with -r first and -d second selects the debug scan of the fourth entry. -/
theorem dispatch_debug (p : String) :
    dispatch ["nvme-huawei.py", "-r", "-d", p] = .scan true (some p) := by rfl

/-- C9 counterexample: with the debug flag placed before -r, as in the claim,
main takes the unknown-option branch: no scan is performed at all. -/
theorem c9_counterexample :
    dispatch ["nvme-huawei.py", "-d", "-r", "nvme.img"] = .unknownOption "-d" := by rfl

/-- C9 amended (proved): the debug invocation is -r -d path (debug flag after
the mode flag); it performs the same scan, and each line carries the raw tag
offset and a LENGHT equal to the character length of the hex-encoded tag
string. -/
theorem c9_debug_invocation (p : String) (data : List Nat) (hexTag : String)
    (r : RecordOut) (h : scanEntry data hexTag = .ok r) :
    dispatch ["nvme-huawei.py", "-r", "-d", p] = .scan true (some p) ∧
    r.hexLen = hexTag.length ∧
    scanEntryLine true data hexTag =
      .ok (r.name ++ " = " ++ r.value ++ " (OFFSET = " ++ toString r.offset ++
        ") (LENGHT = " ++ toString hexTag.length ++ ")") := by
  have hlen : r.hexLen = hexTag.length := by
    unfold scanEntry at h
    rcases h0 : get_value_offset data (.str hexTag) with e | off <;> rw [h0] at h
    · exact Except.noConfusion h
    rcases h1 : bytesFromHex hexTag with _ | tagBytes <;> rw [h1] at h
    · exact Except.noConfusion h
    rcases h2 : parse_string off (get_gap_num hexTag) data tagBytes.length with e | v <;>
      simp only [h2] at h
    · exact Except.noConfusion h
    rcases h3 : decodeAscii tagBytes with e | nm <;> rw [h3] at h
    · exact Except.noConfusion h
    injection h with h
    rw [← h]
  refine ⟨dispatch_debug p, hlen, ?_⟩
  unfold scanEntryLine
  rw [h]
  unfold formatRecord
  simp [Except.map, hlen]

/-- C9 witness: the amended statement evaluated on an all-zero image and the
SN entry; the debug line shows OFFSET -1 and LENGHT 4. -/
theorem c9_debug_invocation_witness :
    scanEntry c4Image "534E" = .ok ⟨"SN", "NULL", -1, 4⟩ ∧
    dispatch ["nvme-huawei.py", "-r", "-d", "nvme.img"] = .scan true (some "nvme.img") ∧
    scanEntryLine true c4Image "534E" =
      .ok ("SN" ++ " = " ++ "NULL" ++ " (OFFSET = " ++ toString (-1 : Int) ++
        ") (LENGHT = " ++ toString ("534E" : String).length ++ ")") := by
  have h : scanEntry c4Image "534E" = .ok ⟨"SN", "NULL", -1, 4⟩ := by rfl
  have hc := c9_debug_invocation "nvme.img" c4Image "534E" ⟨"SN", "NULL", -1, 4⟩ h
  exact ⟨h, hc.1, hc.2.2⟩
